import Mathlib

/-!
# Verification of the wgpu clear-screen present loop

Shallow embedding of `src/main.rs`: a window/GPU bootstrap that keeps a
surface configuration in sync with resizes and, on every idle tick, clears
the surface to a fixed color and presents it.

External GPU/window effects (surface.configure, queue.submit, present,
log macros) are modelled as explicit effect records and event traces
returned by the embedded functions.
-/

namespace WgpuRepro

/-- A selection of `wgpu::TextureFormat` variants; the program only ever
queries `is_srgb()` on them. -/
inductive TextureFormat
  | Bgra8Unorm
  | Bgra8UnormSrgb
  | Rgba8Unorm
  | Rgba8UnormSrgb
  | Rgba16Float
deriving DecidableEq, Repr

/-- `TextureFormat::is_srgb` from wgpu: true exactly for the sRGB variants. -/
def TextureFormat.is_srgb : TextureFormat → Bool
  | TextureFormat.Bgra8UnormSrgb => true
  | TextureFormat.Rgba8UnormSrgb => true
  | _ => false

/-- `wgpu::PresentMode` (the program uses `AutoVsync`). -/
inductive PresentMode
  | AutoVsync
  | AutoNoVsync
  | Fifo
  | Immediate
  | Mailbox
deriving DecidableEq, Repr

/-- `wgpu::CompositeAlphaMode`. -/
inductive CompositeAlphaMode
  | Auto
  | Opaque
  | PreMultiplied
  | PostMultiplied
  | Inherit
deriving DecidableEq, Repr

/-- `wgpu::TextureUsages::RENDER_ATTACHMENT` bit (1 << 4), usages as a bit set. -/
def RENDER_ATTACHMENT : Nat := 16

/-- `winit::dpi::PhysicalSize<u32>`. -/
structure PhysicalSize where
  width : Nat
  height : Nat
deriving DecidableEq, Repr

/-- `wgpu::SurfaceConfiguration` as built in `main` (src/main.rs lines 39-48). -/
structure SurfaceConfiguration where
  usage : Nat
  format : TextureFormat
  width : Nat
  height : Nat
  present_mode : PresentMode
  desired_maximum_frame_latency : Nat
  alpha_mode : CompositeAlphaMode
  view_formats : List TextureFormat
deriving DecidableEq, Repr

/-- `wgpu::SurfaceError` variants matched by the dispatch loop. -/
inductive SurfaceError
  | Timeout
  | Outdated
  | Lost
  | OutOfMemory
deriving DecidableEq, Repr

/-- Log levels of the `log` crate used by the program. -/
inductive LogLevel
  | error
  | warn
  | info
  | trace
deriving DecidableEq, Repr

/-- The log messages the program can emit, with their formatted arguments. -/
inductive LogMessage
  | resized (w h : Nat)
  | getCurrentTextureTook (ms : Nat)
  | surfaceError (e : SurfaceError)
  | present
deriving DecidableEq, Repr

/-- One emitted log entry: level plus message. -/
structure LogEntry where
  level : LogLevel
  msg : LogMessage
deriving DecidableEq, Repr

/-- Result of one `resize_surface` call: the (possibly updated) configuration,
how many times `surface.configure` ran, and the log entries emitted. -/
structure ResizeOut where
  config : SurfaceConfiguration
  configure_calls : Nat
  logs : List LogEntry
deriving DecidableEq, Repr

/-- `resize_surface` (src/main.rs lines 80-87): guard against zero dimensions,
otherwise store the new size, reconfigure the surface once, and log at info
level. -/
def resize_surface (size : PhysicalSize) (config : SurfaceConfiguration) : ResizeOut :=
  if size.width > 0 ∧ size.height > 0 then
    { config := { config with width := size.width, height := size.height },
      configure_calls := 1,
      logs := [⟨LogLevel.info, LogMessage.resized size.width size.height⟩] }
  else
    { config := config, configure_calls := 0, logs := [] }

/-- An RGBA color with `f64` components, embedded as exact rationals. -/
structure Color where
  r : ℚ
  g : ℚ
  b : ℚ
  a : ℚ
deriving DecidableEq, Repr

/-- `wgpu::LoadOp`. -/
inductive LoadOp
  | Clear (color : Color)
  | Load
deriving DecidableEq, Repr

/-- `wgpu::StoreOp`. -/
inductive StoreOp
  | Store
  | Discard
deriving DecidableEq, Repr

/-- `wgpu::Operations` for a color attachment. -/
structure Operations where
  load : LoadOp
  store : StoreOp
deriving DecidableEq, Repr

/-- A color attachment of the render pass (the view handle and the `None`
resolve target carry no further data in this model). -/
structure RenderPassColorAttachment where
  ops : Operations
deriving DecidableEq, Repr

/-- Debug labels appearing in the source (encoder and render-pass labels). -/
inductive Label
  | renderEncoder
  | renderPass
deriving DecidableEq, Repr

/-- The `RenderPassDescriptor` fields the program sets (src/main.rs 105-123). -/
structure RenderPassDescriptor where
  label : Option Label
  color_attachments : List (Option RenderPassColorAttachment)
  depth_stencil_attachment : Option Unit
  occlusion_query_set : Option Unit
  timestamp_writes : Option Unit
deriving DecidableEq, Repr

/-- The clear color from src/main.rs lines 111-116, exact decimal values. -/
def clearColor : Color :=
  { r := 0.6509803921568628
    g := 0.8901960784313725
    b := 0.6313725490196078
    a := 1.0 }

/-- The (only) render pass descriptor recorded by `render`. -/
def renderPassDesc : RenderPassDescriptor :=
  { label := some Label.renderPass
    color_attachments :=
      [some { ops := { load := LoadOp.Clear clearColor, store := StoreOp.Store } }]
    depth_stencil_attachment := none
    occlusion_query_set := none
    timestamp_writes := none }

/-- Observable events of one `render` invocation, in program order. -/
inductive FrameEvent
  | log (entry : LogEntry)
  | beginRenderPass (desc : RenderPassDescriptor)
  | draw
  | endRenderPass
  | submit (buffers : Nat)
  | present
deriving DecidableEq, Repr

/-- Outcome of `surface.get_current_texture()`. -/
inductive AcquireResult
  | success
  | failure (e : SurfaceError)
deriving DecidableEq, Repr

/-- `Duration::from_millis(500)` in nanoseconds: the soft acquisition
latency threshold. -/
def timeoutNs : Nat := 500000000

/-- Result of one `render` call: the returned `Result<(), SurfaceError>` and
the ordered trace of observable events. -/
structure RenderOut where
  result : Except SurfaceError Unit
  events : List FrameEvent

/-- `render` (src/main.rs lines 89-131). `acquire` is the outcome of
`surface.get_current_texture()` and `elapsedNs` how long it blocked.
On failure the `?` operator returns before anything is logged or recorded.
On success: the over-threshold check logs at ERROR level (elapsed
milliseconds, truncated), then one clear-only render pass is recorded, one
command buffer is submitted, `trace!("Present")` fires, and the image is
presented. -/
def render (acquire : AcquireResult) (elapsedNs : Nat) : RenderOut :=
  match acquire with
  | AcquireResult.failure e => { result := Except.error e, events := [] }
  | AcquireResult.success =>
    { result := Except.ok ()
      events :=
        (if elapsedNs > timeoutNs then
          [FrameEvent.log
            ⟨LogLevel.error, LogMessage.getCurrentTextureTook (elapsedNs / 1000000)⟩]
        else []) ++
        [FrameEvent.beginRenderPass renderPassDesc,
         FrameEvent.endRenderPass,
         FrameEvent.submit 1,
         FrameEvent.log ⟨LogLevel.trace, LogMessage.present⟩,
         FrameEvent.present] }

/-- `winit::event::WindowEvent` cases the loop distinguishes. -/
inductive WindowEvent
  | closeRequested
  | resized (size : PhysicalSize)
  | otherWindowEvent
deriving DecidableEq, Repr

/-- `winit::event::Event` cases the loop distinguishes. -/
inductive Event
  | windowEvent (window_id : Nat) (event : WindowEvent)
  | aboutToWait
  | otherEvent
deriving DecidableEq, Repr

/-- Dispatch-loop state: the shared configuration store plus whether
`target.exit()` has been called. -/
structure LoopState where
  config : SurfaceConfiguration
  exited : Bool
deriving DecidableEq, Repr

/-- Environment inputs of one tick: the acquisition outcome, how long
acquisition blocked, and `window.inner_size()`. -/
structure TickEnv where
  acquire : AcquireResult
  elapsedNs : Nat
  inner_size : PhysicalSize
deriving Repr

/-- Effects of one iteration of the event-loop closure. -/
structure StepOut where
  state : LoopState
  resize_calls : List PhysicalSize
  configure_calls : Nat
  frame_events : List FrameEvent
  logs : List LogEntry

/-- One iteration of the `event_loop.run` closure (src/main.rs lines 54-76).
`own_id` is `window.id()`. `resize_calls` lists the sizes `resize_surface`
was invoked with, `configure_calls` counts `surface.configure` runs,
`frame_events` is the `render` trace, `logs` the dispatch-level and
resize-level log entries. -/
def step (own_id : Nat) (env : TickEnv) (s : LoopState) (ev : Event) : StepOut :=
  match ev with
  | Event.windowEvent wid wevent =>
    if wid = own_id then
      match wevent with
      | WindowEvent.closeRequested =>
        { state := { s with exited := true }, resize_calls := [], configure_calls := 0,
          frame_events := [], logs := [] }
      | WindowEvent.resized size =>
        { state := { s with config := (resize_surface size s.config).config },
          resize_calls := [size],
          configure_calls := (resize_surface size s.config).configure_calls,
          frame_events := [],
          logs := (resize_surface size s.config).logs }
      | WindowEvent.otherWindowEvent =>
        { state := s, resize_calls := [], configure_calls := 0,
          frame_events := [], logs := [] }
    else
      { state := s, resize_calls := [], configure_calls := 0,
        frame_events := [], logs := [] }
  | Event.aboutToWait =>
    match (render env.acquire env.elapsedNs).result with
    | Except.ok _ =>
      { state := s, resize_calls := [], configure_calls := 0,
        frame_events := (render env.acquire env.elapsedNs).events, logs := [] }
    | Except.error SurfaceError.Lost =>
      { state := { s with config := (resize_surface env.inner_size s.config).config },
        resize_calls := [env.inner_size],
        configure_calls := (resize_surface env.inner_size s.config).configure_calls,
        frame_events := (render env.acquire env.elapsedNs).events,
        logs := (resize_surface env.inner_size s.config).logs }
    | Except.error SurfaceError.OutOfMemory =>
      { state := { s with exited := true }, resize_calls := [], configure_calls := 0,
        frame_events := (render env.acquire env.elapsedNs).events, logs := [] }
    | Except.error e =>
      { state := s, resize_calls := [], configure_calls := 0,
        frame_events := (render env.acquire env.elapsedNs).events,
        logs := [⟨LogLevel.error, LogMessage.surfaceError e⟩] }
  | Event.otherEvent =>
    { state := s, resize_calls := [], configure_calls := 0,
      frame_events := [], logs := [] }

/-- Surface-format selection (src/main.rs lines 34-38): first sRGB format of
the capability list, with `unwrap_or(formats[0])`; `formats[0]` panics on an
empty list, modelled as `none`. -/
def surfaceFormatOf (formats : List TextureFormat) : Option TextureFormat :=
  match formats.get? 0 with
  | none => none
  | some f0 => some (((formats.filter fun f => f.is_srgb).head?).getD f0)

/-- The initial configuration built in `main` (src/main.rs lines 39-48). -/
def initialConfig (format : TextureFormat) (alpha : CompositeAlphaMode)
    (size : PhysicalSize) : SurfaceConfiguration :=
  { usage := RENDER_ATTACHMENT
    format := format
    width := size.width
    height := size.height
    present_mode := PresentMode.AutoVsync
    desired_maximum_frame_latency := 2
    alpha_mode := alpha
    view_formats := [] }

/-- Is this frame event a command-buffer submission? -/
def isSubmit : FrameEvent → Bool
  | FrameEvent.submit _ => true
  | _ => false

/-- Is this frame event a presentation? -/
def isPresent : FrameEvent → Bool
  | FrameEvent.present => true
  | _ => false

/-- Is this frame event a draw call? -/
def isDraw : FrameEvent → Bool
  | FrameEvent.draw => true
  | _ => false

/-- Is this frame event the start of a render pass? -/
def isBeginPass : FrameEvent → Bool
  | FrameEvent.beginRenderPass _ => true
  | _ => false

/-- Is this frame event a log emission? -/
def isLogEvent : FrameEvent → Bool
  | FrameEvent.log _ => true
  | _ => false

/-- Total number of command buffers submitted in a trace. -/
def submittedBuffers (evs : List FrameEvent) : Nat :=
  (evs.map fun e => match e with
    | FrameEvent.submit n => n
    | _ => 0).sum

/-- The trace with log events erased: the GPU-visible control flow. -/
def gpuEvents (evs : List FrameEvent) : List FrameEvent :=
  evs.filter fun e => !(isLogEvent e)

/-- A sample configuration as `main` would build it for an 800 x 600 window. -/
def sampleConfig : SurfaceConfiguration :=
  initialConfig TextureFormat.Bgra8UnormSrgb CompositeAlphaMode.Auto ⟨800, 600⟩

/-- A sample running loop state. -/
def sampleState : LoopState :=
  { config := sampleConfig, exited := false }

/-- A tick whose acquisition fails with `Outdated`. -/
def envOutdated : TickEnv :=
  { acquire := AcquireResult.failure SurfaceError.Outdated, elapsedNs := 0,
    inner_size := ⟨800, 600⟩ }

/-- A tick whose acquisition fails with `Lost`. -/
def envLost : TickEnv :=
  { acquire := AcquireResult.failure SurfaceError.Lost, elapsedNs := 0,
    inner_size := ⟨800, 600⟩ }

/-- A tick whose acquisition fails with `Lost` while the window is minimized. -/
def envLostZero : TickEnv :=
  { acquire := AcquireResult.failure SurfaceError.Lost, elapsedNs := 0,
    inner_size := ⟨0, 600⟩ }

/-- Spec-side characterization of the loop's exit triggers: a close-requested
event for this process's own window, or an out-of-memory acquisition result
on an idle tick. -/
def exitTrigger (own_id : Nat) (env : TickEnv) (ev : Event) : Bool :=
  match ev with
  | Event.windowEvent wid WindowEvent.closeRequested => wid == own_id
  | Event.aboutToWait =>
    match env.acquire with
    | AcquireResult.failure SurfaceError.OutOfMemory => true
    | _ => false
  | _ => false

/-- First element of a filtered list is the first element satisfying the
predicate. -/
theorem head_filter_eq_find {α : Type} (p : α → Bool) (l : List α) :
    (l.filter p).head? = l.find? p := by
  induction l with
  | nil => rfl
  | cons a l ih =>
    by_cases h : p a
    · simp [List.filter_cons, List.find?_cons, h]
    · simp [List.filter_cons, List.find?_cons, h, ih]

/-- Claim C2: for every resize input with width > 0 and height > 0, after the
Resize Handler runs the stored configuration's width and height equal the
input, the surface reconfiguration call is invoked exactly once, and an
informational log entry with the new dimensions is emitted. -/
theorem resize_valid_applies (size : PhysicalSize) (config : SurfaceConfiguration)
    (hw : 0 < size.width) (hh : 0 < size.height) :
    (resize_surface size config).config.width = size.width ∧
    (resize_surface size config).config.height = size.height ∧
    (resize_surface size config).configure_calls = 1 ∧
    (resize_surface size config).logs =
      [⟨LogLevel.info, LogMessage.resized size.width size.height⟩] := by
  simp [resize_surface, hw, hh]

/-- Claim C2, witness: resizing the 800 x 600 sample configuration to
1024 x 768. -/
theorem resize_valid_applies_witness :
    (resize_surface ⟨1024, 768⟩ sampleConfig).config.width = 1024 ∧
    (resize_surface ⟨1024, 768⟩ sampleConfig).config.height = 768 ∧
    (resize_surface ⟨1024, 768⟩ sampleConfig).configure_calls = 1 ∧
    (resize_surface ⟨1024, 768⟩ sampleConfig).logs =
      [⟨LogLevel.info, LogMessage.resized 1024 768⟩] :=
  resize_valid_applies ⟨1024, 768⟩ sampleConfig (by decide) (by decide)

/-- Claim C3: for every resize input where width = 0 or height = 0, the Resize
Handler leaves the entire stored configuration unchanged and performs no
surface reconfiguration call. -/
theorem resize_zero_noop (size : PhysicalSize) (config : SurfaceConfiguration)
    (h : size.width = 0 ∨ size.height = 0) :
    (resize_surface size config).config = config ∧
    (resize_surface size config).configure_calls = 0 := by
  rcases h with h | h <;> simp [resize_surface, h]

/-- Claim C3, witness: a minimized-window resize to 0 x 768 leaves the sample
configuration untouched. -/
theorem resize_zero_noop_witness :
    (resize_surface ⟨0, 768⟩ sampleConfig).config = sampleConfig ∧
    (resize_surface ⟨0, 768⟩ sampleConfig).configure_calls = 0 :=
  resize_zero_noop ⟨0, 768⟩ sampleConfig (Or.inl rfl)

/-- Claim C10: for every resize input with width > 0 and height > 0, the
Resize Handler mutates only the width and height fields: pixel format,
present mode, alpha mode, usage flags, desired maximum frame latency, and
view formats are unchanged. -/
theorem resize_preserves_other_fields (size : PhysicalSize)
    (config : SurfaceConfiguration) (hw : 0 < size.width) (hh : 0 < size.height) :
    (resize_surface size config).config.format = config.format ∧
    (resize_surface size config).config.present_mode = config.present_mode ∧
    (resize_surface size config).config.alpha_mode = config.alpha_mode ∧
    (resize_surface size config).config.usage = config.usage ∧
    (resize_surface size config).config.desired_maximum_frame_latency =
      config.desired_maximum_frame_latency ∧
    (resize_surface size config).config.view_formats = config.view_formats := by
  simp [resize_surface, hw, hh]

/-- Claim C10, witness: resizing the sample configuration to 1920 x 1080
keeps every field other than the dimensions. -/
theorem resize_preserves_other_fields_witness :
    (resize_surface ⟨1920, 1080⟩ sampleConfig).config.format = sampleConfig.format ∧
    (resize_surface ⟨1920, 1080⟩ sampleConfig).config.present_mode =
      sampleConfig.present_mode ∧
    (resize_surface ⟨1920, 1080⟩ sampleConfig).config.alpha_mode =
      sampleConfig.alpha_mode ∧
    (resize_surface ⟨1920, 1080⟩ sampleConfig).config.usage = sampleConfig.usage ∧
    (resize_surface ⟨1920, 1080⟩ sampleConfig).config.desired_maximum_frame_latency =
      sampleConfig.desired_maximum_frame_latency ∧
    (resize_surface ⟨1920, 1080⟩ sampleConfig).config.view_formats =
      sampleConfig.view_formats :=
  resize_preserves_other_fields ⟨1920, 1080⟩ sampleConfig (by decide) (by decide)

/-- Claim C5: for every non-empty capability list, the selected format is the
first sRGB-capable one when any exists, otherwise the first of the list, and
selection never fails. -/
theorem surface_format_selection (formats : List TextureFormat)
    (h : formats ≠ []) :
    ((∃ f ∈ formats, f.is_srgb = true) →
      surfaceFormatOf formats = formats.find? fun f => f.is_srgb) ∧
    ((∀ f ∈ formats, f.is_srgb = false) →
      surfaceFormatOf formats = formats.head?) ∧
    surfaceFormatOf formats ≠ none := by
  obtain ⟨a, l, rfl⟩ := List.exists_cons_of_ne_nil h
  refine ⟨?_, ?_, ?_⟩
  · rintro ⟨f, hf, hsrgb⟩
    have hfind : ((a :: l).find? fun f => f.is_srgb).isSome := by
      rw [List.find?_isSome]
      exact ⟨f, hf, hsrgb⟩
    obtain ⟨g, hg⟩ := Option.isSome_iff_exists.mp hfind
    simp [surfaceFormatOf, head_filter_eq_find, hg]
  · intro hnone
    have hfind : (a :: l).find? (fun f => f.is_srgb) = none := by
      rw [List.find?_eq_none]
      intro x hx
      simp [hnone x hx]
    simp [surfaceFormatOf, head_filter_eq_find, hfind]
  · simp [surfaceFormatOf]

/-- Claim C5, witness: on a list whose second entry is the only sRGB format,
selection picks it; on an sRGB-free list it picks the head, with no error. -/
theorem surface_format_selection_witness :
    ((∃ f ∈ [TextureFormat.Bgra8Unorm, TextureFormat.Bgra8UnormSrgb],
        f.is_srgb = true) →
      surfaceFormatOf [TextureFormat.Bgra8Unorm, TextureFormat.Bgra8UnormSrgb] =
        [TextureFormat.Bgra8Unorm, TextureFormat.Bgra8UnormSrgb].find?
          fun f => f.is_srgb) ∧
    ((∀ f ∈ [TextureFormat.Bgra8Unorm, TextureFormat.Bgra8UnormSrgb],
        f.is_srgb = false) →
      surfaceFormatOf [TextureFormat.Bgra8Unorm, TextureFormat.Bgra8UnormSrgb] =
        [TextureFormat.Bgra8Unorm, TextureFormat.Bgra8UnormSrgb].head?) ∧
    surfaceFormatOf [TextureFormat.Bgra8Unorm, TextureFormat.Bgra8UnormSrgb] ≠
      none :=
  surface_format_selection
    [TextureFormat.Bgra8Unorm, TextureFormat.Bgra8UnormSrgb] (by decide)

/-- Claim C6: for every successful acquisition, exactly one command buffer is
submitted and the image is presented exactly once, with the trace-level
Present log entry immediately before presentation; presentation is the last
event of the invocation, so the image is never retained past it. -/
theorem successful_frame_submits_once (elapsedNs : Nat) :
    submittedBuffers (render AcquireResult.success elapsedNs).events = 1 ∧
    (render AcquireResult.success elapsedNs).events.countP isSubmit = 1 ∧
    (render AcquireResult.success elapsedNs).events.countP isPresent = 1 ∧
    ∃ pre, (render AcquireResult.success elapsedNs).events =
      pre ++ [FrameEvent.log ⟨LogLevel.trace, LogMessage.present⟩,
              FrameEvent.present] := by
  by_cases h : elapsedNs > timeoutNs
  · have he : (render AcquireResult.success elapsedNs).events =
        [FrameEvent.log
          ⟨LogLevel.error, LogMessage.getCurrentTextureTook (elapsedNs / 1000000)⟩,
         FrameEvent.beginRenderPass renderPassDesc,
         FrameEvent.endRenderPass,
         FrameEvent.submit 1,
         FrameEvent.log ⟨LogLevel.trace, LogMessage.present⟩,
         FrameEvent.present] := by
      simp [render, h]
    rw [he]
    exact ⟨rfl, rfl, rfl,
      ⟨[FrameEvent.log
          ⟨LogLevel.error, LogMessage.getCurrentTextureTook (elapsedNs / 1000000)⟩,
        FrameEvent.beginRenderPass renderPassDesc,
        FrameEvent.endRenderPass,
        FrameEvent.submit 1], rfl⟩⟩
  · have he : (render AcquireResult.success elapsedNs).events =
        [FrameEvent.beginRenderPass renderPassDesc,
         FrameEvent.endRenderPass,
         FrameEvent.submit 1,
         FrameEvent.log ⟨LogLevel.trace, LogMessage.present⟩,
         FrameEvent.present] := by
      simp [render, h]
    rw [he]
    exact ⟨rfl, rfl, rfl,
      ⟨[FrameEvent.beginRenderPass renderPassDesc,
        FrameEvent.endRenderPass,
        FrameEvent.submit 1], rfl⟩⟩

/-- Claim C7, counterexample: the recorded clear color is not exactly
(0.651, 0.890, 0.631, 1.0); already the red component differs. -/
theorem clear_color_not_651 :
    LoadOp.Clear clearColor ≠
      LoadOp.Clear { r := 0.651, g := 0.890, b := 0.631, a := 1.0 } := by
  intro hcontra
  have hr : clearColor.r = (0.651 : ℚ) := by
    have := LoadOp.Clear.inj hcontra
    rw [this]
  norm_num [clearColor] at hr

/-- Claim C7 (amended): the single render pass per successful frame clears
its sole color attachment to exactly
(0.6509803921568628, 0.8901960784313725, 0.6313725490196078, 1.0) —
approximately (0.651, 0.890, 0.631, 1.0) — with a store operation, no
depth/stencil attachment, no occlusion queries, no timestamp capture, and
no draw calls. -/
theorem render_pass_clear_only (elapsedNs : Nat) :
    (render AcquireResult.success elapsedNs).events.countP isBeginPass = 1 ∧
    FrameEvent.beginRenderPass renderPassDesc ∈
      (render AcquireResult.success elapsedNs).events ∧
    renderPassDesc.color_attachments =
      [some { ops :=
        { load := LoadOp.Clear
            { r := 0.6509803921568628, g := 0.8901960784313725,
              b := 0.6313725490196078, a := 1.0 },
          store := StoreOp.Store } }] ∧
    renderPassDesc.depth_stencil_attachment = none ∧
    renderPassDesc.occlusion_query_set = none ∧
    renderPassDesc.timestamp_writes = none ∧
    (render AcquireResult.success elapsedNs).events.countP isDraw = 0 := by
  by_cases h : elapsedNs > timeoutNs <;>
    simp [render, h, renderPassDesc, clearColor, List.countP_cons, isBeginPass,
      isDraw, List.countP_nil]

/-- Claim C4, counterexample: an acquisition taking 600ms emits the elapsed
time at ERROR level, and no warning-level entry appears anywhere in the
trace — the claim's warning level is wrong. -/
theorem slow_acquire_logs_error_level :
    FrameEvent.log ⟨LogLevel.error, LogMessage.getCurrentTextureTook 600⟩ ∈
      (render AcquireResult.success 600000000).events ∧
    (render AcquireResult.success 600000000).events.countP
      (fun e => match e with
        | FrameEvent.log entry => entry.level = LogLevel.warn
        | _ => false) = 0 := by
  constructor
  · simp [render, timeoutNs]
  · rfl

/-- Claim C4 (amended): whenever acquisition exceeds the 500ms soft
threshold, `render` emits an ERROR-level (not warning-level) log entry
carrying the elapsed milliseconds, and the check changes no control flow:
the returned result and the GPU-visible events are identical to those of a
fast acquisition. -/
theorem slow_acquire_observability (elapsedNs : Nat)
    (h : timeoutNs < elapsedNs) :
    FrameEvent.log
        ⟨LogLevel.error, LogMessage.getCurrentTextureTook (elapsedNs / 1000000)⟩ ∈
      (render AcquireResult.success elapsedNs).events ∧
    ∀ a : AcquireResult,
      (render a elapsedNs).result = (render a 0).result ∧
      gpuEvents (render a elapsedNs).events = gpuEvents (render a 0).events := by
  constructor
  · simp [render, h]
  · intro a
    cases a with
    | success =>
      constructor
      · rfl
      · simp [render, h, gpuEvents, isLogEvent, List.filter_cons, timeoutNs]
    | failure e => exact ⟨rfl, rfl⟩

/-- Claim C4 (amended), witness: instantiated at a 600ms acquisition. -/
theorem slow_acquire_observability_witness :
    FrameEvent.log
        ⟨LogLevel.error, LogMessage.getCurrentTextureTook (600000000 / 1000000)⟩ ∈
      (render AcquireResult.success 600000000).events ∧
    ∀ a : AcquireResult,
      (render a 600000000).result = (render a 0).result ∧
      gpuEvents (render a 600000000).events = gpuEvents (render a 0).events :=
  slow_acquire_observability 600000000 (by decide)

/-- Claim C1, counterexample: an Outdated acquisition failure does NOT invoke
the Resize Handler — the dispatch loop only matches Lost; Outdated falls to
the generic error arm, so the claim fails for Outdated. -/
theorem outdated_does_not_resize :
    envOutdated.acquire = AcquireResult.failure SurfaceError.Outdated ∧
    (step 1 envOutdated sampleState Event.aboutToWait).resize_calls = [] ∧
    (step 1 envOutdated sampleState Event.aboutToWait).configure_calls = 0 ∧
    (step 1 envOutdated sampleState Event.aboutToWait).logs =
      [⟨LogLevel.error, LogMessage.surfaceError SurfaceError.Outdated⟩] := by
  refine ⟨rfl, ?_, ?_, ?_⟩ <;> rfl

/-- Claim C1 (amended): only a Lost acquisition failure triggers the recovery:
the loop then invokes the Resize Handler with the window's current size. An
Outdated failure is handled as a generic surface error (logged, no resize).
In both cases no command buffer is submitted and no image is presented for
that tick. -/
theorem lost_outdated_frame_skipped (own_id : Nat) (env : TickEnv)
    (s : LoopState)
    (h : env.acquire = AcquireResult.failure SurfaceError.Lost ∨
         env.acquire = AcquireResult.failure SurfaceError.Outdated) :
    submittedBuffers (step own_id env s Event.aboutToWait).frame_events = 0 ∧
    (step own_id env s Event.aboutToWait).frame_events.countP isPresent = 0 ∧
    (env.acquire = AcquireResult.failure SurfaceError.Lost →
      (step own_id env s Event.aboutToWait).resize_calls = [env.inner_size]) ∧
    (env.acquire = AcquireResult.failure SurfaceError.Outdated →
      (step own_id env s Event.aboutToWait).resize_calls = [] ∧
      (step own_id env s Event.aboutToWait).logs =
        [⟨LogLevel.error, LogMessage.surfaceError SurfaceError.Outdated⟩]) := by
  rcases h with h | h <;>
    simp [step, render, h, submittedBuffers, List.countP_nil]

/-- Claim C1 (amended), witness: instantiated at a Lost tick on the sample
state. -/
theorem lost_outdated_frame_skipped_witness :
    submittedBuffers (step 1 envLost sampleState Event.aboutToWait).frame_events
      = 0 ∧
    (step 1 envLost sampleState Event.aboutToWait).frame_events.countP isPresent
      = 0 ∧
    (envLost.acquire = AcquireResult.failure SurfaceError.Lost →
      (step 1 envLost sampleState Event.aboutToWait).resize_calls =
        [envLost.inner_size]) ∧
    (envLost.acquire = AcquireResult.failure SurfaceError.Outdated →
      (step 1 envLost sampleState Event.aboutToWait).resize_calls = [] ∧
      (step 1 envLost sampleState Event.aboutToWait).logs =
        [⟨LogLevel.error, LogMessage.surfaceError SurfaceError.Outdated⟩]) :=
  lost_outdated_frame_skipped 1 envLost sampleState (Or.inl rfl)

/-- Claim C9: a Lost recovery while the window's current size has a zero
dimension performs no surface reconfiguration and leaves the configuration
store unchanged. -/
theorem lost_recovery_zero_dimensions (own_id : Nat) (env : TickEnv)
    (s : LoopState)
    (hacq : env.acquire = AcquireResult.failure SurfaceError.Lost)
    (hz : env.inner_size.width = 0 ∨ env.inner_size.height = 0) :
    (step own_id env s Event.aboutToWait).configure_calls = 0 ∧
    (step own_id env s Event.aboutToWait).state.config = s.config := by
  rcases hz with hz | hz <;> simp [step, render, hacq, resize_surface, hz]

/-- Claim C9, witness: a Lost tick while minimized (inner size 0 x 600). -/
theorem lost_recovery_zero_dimensions_witness :
    (step 1 envLostZero sampleState Event.aboutToWait).configure_calls = 0 ∧
    (step 1 envLostZero sampleState Event.aboutToWait).state.config =
      sampleState.config :=
  lost_recovery_zero_dimensions 1 envLostZero sampleState rfl (Or.inl rfl)

/-- Claim C8: the loop exits exactly when a close-requested event arrives for
its own window or an idle tick's acquisition fails with out-of-memory; every
other event or acquisition error leaves the exited flag as it was. -/
theorem exit_characterization (own_id : Nat) (env : TickEnv) (s : LoopState)
    (ev : Event) :
    (step own_id env s ev).state.exited =
      (s.exited || exitTrigger own_id env ev) := by
  cases ev with
  | windowEvent wid wevent =>
    by_cases h : wid = own_id
    · cases wevent <;> simp [step, exitTrigger, h]
    · cases wevent <;> simp [step, exitTrigger, h]
  | aboutToWait =>
    cases hacq : env.acquire with
    | success => simp [step, render, exitTrigger, hacq]
    | failure e => cases e <;> simp [step, render, exitTrigger, hacq]
  | otherEvent => simp [step, exitTrigger]

end WgpuRepro
